import Mathlib

/-!
Shallow embedding of the QtAVPlayer core (`src/QtAVPlayer/qavplayer.cpp`).

Doubles holding seconds are modelled as exact rationals (`ℚ`); the C++
`double -> qint64` conversion used when reporting milliseconds truncates
toward zero and is modelled by `truncQ`.  Signal emissions are collected in
an ordered trace; deferred events (`QAVPlayerPrivate::events`, a list of
closures) are modelled by the inductive `EventKind` whose bodies are run by
`Player.runEvent`.  The demuxer worker loop body (`doDemux`) is modelled one
iteration at a time; values produced by the external demuxer (`read`,
`seek` return code, `eof`) and the value the `pendingPosition` cell holds
when the worker re-acquires `positionMutex` after a seek (another thread may
have overwritten it meanwhile) are explicit inputs of the step.
-/

attribute [local semireducible] Rat.mul Rat.add Rat.inv Rat.sub

namespace QAVPlayer

inductive MediaStatus
  | NoMedia
  | LoadedMedia
  | EndOfMedia
  | InvalidMedia
  deriving DecidableEq, Repr

inductive State
  | StoppedState
  | PlayingState
  | PausedState
  deriving DecidableEq, Repr

inductive Error
  | NoError
  | ResourceError
  deriving DecidableEq, Repr

end QAVPlayer

/-- C++ `double` to `qint64` conversion: truncation toward zero
(`q.num / q.den` rounded toward zero, written with `Nat` division so that
it evaluates). -/
def truncQ (q : ℚ) : Int :=
  if 0 ≤ q.num then (q.num.toNat / q.den : Nat)
  else -((q.num.natAbs / q.den : Nat))

/-- Qt's `qFuzzyCompare(double p1, double p2)`:
`qAbs(p1 - p2) * 1000000000000. <= qMin(qAbs(p1), qAbs(p2))`. -/
def qFuzzyCompare (p1 p2 : ℚ) : Bool :=
  |p1 - p2| * 1000000000000 ≤ min |p1| |p2|

/-- A demuxed packet (`QAVPacket`): its stream index and payload size in bytes. -/
structure QAVPacket where
  streamIndex : Int
  size : Nat
  deriving DecidableEq, Repr

/-- Packet queue (`QAVPacketQueue`): the pending packets, the terminal
`finished` flag and the last emitted pts (seconds). -/
structure QAVPacketQueue where
  packets : List QAVPacket
  finished : Bool
  pts : ℚ
  deriving DecidableEq, Repr

def QAVPacketQueue.bytes (q : QAVPacketQueue) : Nat :=
  (q.packets.map (fun p => p.size)).sum

def QAVPacketQueue.isEmpty (q : QAVPacketQueue) : Bool :=
  q.packets.isEmpty

/-- Modelled from the spec: `qavpacketqueue_p.h` is not part of the given
sources.  The spec describes `enough()` as a stable heuristic that is "true
when the queue holds at least a small content threshold (e.g. ≥1 second of
stream or ≥ N packets)"; we model it as holding at least 100 packets.  The
facts proved below depend only on the threshold being positive (an empty,
never-fed queue is never `enough`). -/
def QAVPacketQueue.enough (q : QAVPacketQueue) : Bool :=
  100 ≤ q.packets.length

def QAVPacketQueue.clear (q : QAVPacketQueue) : QAVPacketQueue :=
  { q with packets := [] }

def QAVPacketQueue.enqueue (q : QAVPacketQueue) (p : QAVPacket) : QAVPacketQueue :=
  { q with packets := q.packets ++ [p] }

def QAVPacketQueue.finish (q : QAVPacketQueue) : QAVPacketQueue :=
  { q with finished := true }

/-- The deferred events pushed onto `QAVPlayerPrivate::events`.  The source
stores closures; each constructor names one of the closure shapes appearing
in `play`, `pause`, `stop` and `seek` (the `pending*` ones are the
"not loaded yet, postponing" retries). -/
inductive EventKind
  | playedEvent
  | pausedEvent
  | stoppedEvent
  | seekedEvent
  | pendingPlay
  | pendingPause
  | pendingSeek (pos : Int)
  deriving DecidableEq, Repr

/-- Observable emissions, in order.  `videoFrame true` is the empty sentinel
frame `videoFrame({})`. -/
inductive Signal
  | stateChanged (s : QAVPlayer.State)
  | mediaStatusChanged (m : QAVPlayer.MediaStatus)
  | errorOccurred (e : QAVPlayer.Error) (msg : String)
  | durationChanged (ms : Int)
  | seekableChanged (b : Bool)
  | videoFrameRateChanged (r : ℚ)
  | played (ms : Int)
  | paused (ms : Int)
  | stopped (ms : Int)
  | seeked (ms : Int)
  | speedChanged (r : ℚ)
  | sourceChanged (url : String)
  | videoFrame (empty : Bool)
  | audioFrame
  deriving DecidableEq, Repr

/-- The player state: the fields of `QAVPlayerPrivate` the claims touch,
plus the two stream indices reported by the demuxer (`demuxer.videoStream()`
/ `demuxer.audioStream()`, negative when the stream is absent). -/
structure Player where
  url : String
  mediaStatus : QAVPlayer.MediaStatus
  state : QAVPlayer.State
  error : QAVPlayer.Error
  errorString : String
  seekable : Bool
  speed : ℚ
  videoFrameRate : ℚ
  duration : ℚ
  pendingPosition : ℚ
  videoStream : Int
  audioStream : Int
  videoQueue : QAVPacketQueue
  audioQueue : QAVPacketQueue
  isWaiting : Bool
  events : List EventKind
  deriving DecidableEq, Repr

/-- `QAVPlayer::hasVideo()`: `demuxer.videoStream() >= 0`. -/
def Player.hasVideo (p : Player) : Bool :=
  decide (0 ≤ p.videoStream)

/-- `QAVPlayer::hasAudio()`: `demuxer.audioStream() >= 0`. -/
def Player.hasAudio (p : Player) : Bool :=
  decide (0 ≤ p.audioStream)

/-- `QAVPlayer::duration()`: `d->duration * 1000` truncated to `qint64`. -/
def Player.durationMs (p : Player) : Int :=
  truncQ (p.duration * 1000)

/-- `QAVPlayer::position()`. -/
def Player.position (p : Player) : Int :=
  if p.mediaStatus = QAVPlayer.MediaStatus.EndOfMedia then
    p.durationMs
  else if 0 ≤ p.pendingPosition then
    truncQ (p.pendingPosition * 1000)
  else
    truncQ ((if p.hasVideo then p.videoQueue.pts else p.audioQueue.pts) * 1000)

/-- The position formula exactly as the specification words it:
"Current position = (EndOfMedia ? duration : PendingPosition ≥ 0 ?
PendingPosition : hasVideo ? VideoPts : AudioPts)", reported in integer
milliseconds (internal arithmetic in seconds). -/
def Player.positionSpec (p : Player) : Int :=
  truncQ
    ((if p.mediaStatus = QAVPlayer.MediaStatus.EndOfMedia then p.duration
      else if 0 ≤ p.pendingPosition then p.pendingPosition
      else if p.hasVideo then p.videoQueue.pts else p.audioQueue.pts) * 1000)

/-- `QAVPlayerPrivate::setMediaStatus`. -/
def Player.setMediaStatus (p : Player) (m : QAVPlayer.MediaStatus) :
    Player × List Signal :=
  if p.mediaStatus = m then (p, [])
  else ({ p with mediaStatus := m }, [Signal.mediaStatusChanged m])

/-- `QAVPlayerPrivate::setState`; the `Bool` is its return value
(whether the state changed). -/
def Player.setState (p : Player) (s : QAVPlayer.State) :
    Player × List Signal × Bool :=
  if p.state = s then (p, [], false)
  else ({ p with state := s }, [Signal.stateChanged s], true)

/-- `QAVPlayerPrivate::wait(v)`: arm or release the gate. -/
def Player.wait (p : Player) (v : Bool) : Player :=
  { p with isWaiting := v }

/-- `QAVPlayerPrivate::event(fn)`: append a deferred event. -/
def Player.pushEvent (p : Player) (e : EventKind) : Player :=
  { p with events := p.events ++ [e] }

/-- `QAVPlayerPrivate::setError`. -/
def Player.setError (p : Player) (err : QAVPlayer.Error) (str : String) :
    Player × List Signal :=
  if p.error = err then (p, [])
  else
    let p1 := { p with error := err, errorString := str }
    let r := p1.setMediaStatus QAVPlayer.MediaStatus.InvalidMedia
    (r.1, Signal.errorOccurred err str :: r.2)

/-- `QAVPlayer::seek(pos)` (pos in milliseconds). -/
def Player.seek (p : Player) (pos : Int) : Player × List Signal :=
  if pos < 0 ∨ (0 < p.durationMs ∧ p.durationMs < pos) then (p, [])
  else
    let status := p.mediaStatus
    if status = QAVPlayer.MediaStatus.LoadedMedia ∨
        status = QAVPlayer.MediaStatus.EndOfMedia then
      let p1 := { p with pendingPosition := (pos : ℚ) / 1000 }
      let r :=
        if status = QAVPlayer.MediaStatus.EndOfMedia then
          p1.setMediaStatus QAVPlayer.MediaStatus.LoadedMedia
        else (p1, [])
      ((r.1.pushEvent EventKind.seekedEvent).wait false, r.2)
    else
      (p.pushEvent (EventKind.pendingSeek pos), [])

/-- `QAVPlayer::play()`. -/
def Player.play (p : Player) : Player × List Signal :=
  if p.url = "" ∨ p.mediaStatus = QAVPlayer.MediaStatus.InvalidMedia then (p, [])
  else
    let status := p.mediaStatus
    if status = QAVPlayer.MediaStatus.LoadedMedia ∨
        status = QAVPlayer.MediaStatus.EndOfMedia then
      let r := p.setState QAVPlayer.State.PlayingState
      if r.2.2 then
        let r2 :=
          if status = QAVPlayer.MediaStatus.EndOfMedia then r.1.seek 0
          else (r.1, [])
        (((r2.1.pushEvent EventKind.playedEvent).wait false), r.2.1 ++ r2.2)
      else (r.1.wait false, r.2.1)
    else
      (p.pushEvent EventKind.pendingPlay, [])

/-- `QAVPlayer::pause()`. -/
def Player.pause (p : Player) : Player × List Signal :=
  let status := p.mediaStatus
  if status = QAVPlayer.MediaStatus.LoadedMedia ∨
      status = QAVPlayer.MediaStatus.EndOfMedia then
    let r1 :=
      if status = QAVPlayer.MediaStatus.EndOfMedia then p.seek 0
      else (p, [])
    let r2 := r1.1.setState QAVPlayer.State.PausedState
    if r2.2.2 then
      (((r2.1.wait false).pushEvent EventKind.pausedEvent), r1.2 ++ r2.2.1)
    else (r2.1.wait true, r1.2 ++ r2.2.1)
  else
    (p.pushEvent EventKind.pendingPause, [])

/-- `QAVPlayer::stop()`. -/
def Player.stop (p : Player) : Player × List Signal :=
  let status := p.mediaStatus
  if status = QAVPlayer.MediaStatus.LoadedMedia ∨
      status = QAVPlayer.MediaStatus.EndOfMedia then
    let r := p.setState QAVPlayer.State.StoppedState
    if r.2.2 then
      (((r.1.wait false).pushEvent EventKind.stoppedEvent), r.2.1)
    else (r.1.wait true, r.2.1)
  else (p, [])

/-- Running one deferred event's closure body with tick flag `tick`
(the result's `Bool` is the closure's return: `true` = consumed). -/
def Player.runEvent (p : Player) (e : EventKind) (tick : Bool) :
    Player × List Signal × Bool :=
  match e with
  | EventKind.playedEvent =>
    let p1 := p.wait false
    if !tick && !(p1.mediaStatus = QAVPlayer.MediaStatus.EndOfMedia) then
      (p1, [], false)
    else (p1, [Signal.played p1.position], true)
  | EventKind.pausedEvent =>
    if !tick && !(p.mediaStatus = QAVPlayer.MediaStatus.EndOfMedia) then
      (p, [], false)
    else
      (p.wait true, [Signal.paused p.position], true)
  | EventKind.stoppedEvent =>
    (p.wait true,
     Signal.stopped p.position ::
       (if p.hasVideo then [Signal.videoFrame true] else []),
     true)
  | EventKind.seekedEvent =>
    if !tick || 0 ≤ p.pendingPosition then (p, [], false)
    else
      let p1 :=
        if p.state = QAVPlayer.State.PausedState ∨
            p.state = QAVPlayer.State.StoppedState then p.wait true
        else p
      (p1, [Signal.seeked p.position], true)
  | EventKind.pendingPlay =>
    let r := p.play
    (r.1, r.2, true)
  | EventKind.pendingPause =>
    let r := p.pause
    (r.1, r.2, true)
  | EventKind.pendingSeek pos =>
    let r := p.seek pos
    (r.1, r.2, true)

/-- `maxQueueBytes` in `doDemux`: `15 * 1024 * 1024`. -/
def maxQueueBytes : Nat := 15 * 1024 * 1024

/-- The demuxer worker's backpressure condition, exactly as `doDemux`
checks it: `videoQueue.bytes() + audioQueue.bytes() > maxQueueBytes ||
(videoQueue.enough() && audioQueue.enough())`. -/
def Player.backpressure (p : Player) : Bool :=
  decide (maxQueueBytes < p.videoQueue.bytes + p.audioQueue.bytes) ||
    (p.videoQueue.enough && p.audioQueue.enough)

/-- The backpressure condition as the specification words it: total bytes
above the cap, or "both present queues report `enough()`" — quantified only
over the queues whose stream exists. -/
def Player.backpressureSpec (p : Player) : Bool :=
  decide (maxQueueBytes < p.videoQueue.bytes + p.audioQueue.bytes) ||
    ((!p.hasVideo || p.videoQueue.enough) &&
     (!p.hasAudio || p.audioQueue.enough) &&
     (p.hasVideo || p.hasAudio))

/-- Externally visible actions of one demuxer worker iteration. -/
inductive DemuxEffect
  | sleep10
  | demuxerSeek (pos : ℚ)
  | clearAndDrainQueues
  | readPacket
  | dispatchEndOfMediaStop
  deriving DecidableEq, Repr

/-- The seek-handling block of `doDemux` (under `positionMutex`): if a seek
is pending, snapshot it, call `demuxer.seek(pos)` (return code `seekRet`);
on success clear both queues and wait for the consumers to drain them; then
re-acquire the lock — `relockPending` is the value the `pendingPosition`
cell holds at that point (a concurrent `seek()` may have overwritten the
snapshot) — and clear it to −1 only if `qFuzzyCompare` says it still equals
the snapshot. -/
def Player.demuxSeekPhase (p : Player) (seekRet : Int) (relockPending : ℚ) :
    Player × List DemuxEffect :=
  if 0 ≤ p.pendingPosition then
    let pos := p.pendingPosition
    let r :=
      if 0 ≤ seekRet then
        ({ p with videoQueue := p.videoQueue.clear,
                  audioQueue := p.audioQueue.clear },
         [DemuxEffect.demuxerSeek pos, DemuxEffect.clearAndDrainQueues])
      else (p, [DemuxEffect.demuxerSeek pos])
    let newPending :=
      if qFuzzyCompare relockPending pos then (-1 : ℚ) else relockPending
    ({ r.1 with pendingPosition := newPending }, r.2)
  else (p, [])

/-- The read-and-route tail of a `doDemux` iteration: `demuxer.read()`
returned `packet`; `eof` is `demuxer.eof()`.  A null packet at EOF with both
queues drained and neither finished finishes each present queue and
dispatches `setMediaStatus(EndOfMedia); stop()` to the client thread; any
null packet ends the iteration with a 10 ms sleep; a packet is routed to the
queue whose stream index matches, or dropped. -/
def Player.demuxReadPhase (p : Player) (packet : Option QAVPacket) (eof : Bool) :
    Player × List DemuxEffect :=
  match packet with
  | none =>
    if eof && p.videoQueue.isEmpty && p.audioQueue.isEmpty &&
        !p.videoQueue.finished && !p.audioQueue.finished then
      let p1 := if p.hasVideo then { p with videoQueue := p.videoQueue.finish } else p
      let p2 := if p.hasAudio then { p1 with audioQueue := p1.audioQueue.finish } else p1
      (p2, [DemuxEffect.readPacket, DemuxEffect.dispatchEndOfMediaStop,
            DemuxEffect.sleep10])
    else
      (p, [DemuxEffect.readPacket, DemuxEffect.sleep10])
  | some pk =>
    if pk.streamIndex = p.videoStream then
      ({ p with videoQueue := p.videoQueue.enqueue pk }, [DemuxEffect.readPacket])
    else if pk.streamIndex = p.audioStream then
      ({ p with audioQueue := p.audioQueue.enqueue pk }, [DemuxEffect.readPacket])
    else (p, [DemuxEffect.readPacket])

/-- Inputs of one demuxer iteration supplied by the environment: the
demuxer's `seek` return code, the `pendingPosition` cell's value at re-lock
time, the packet `read()` yields, and `eof()`. -/
structure DemuxIterInput where
  seekRet : Int
  relockPending : ℚ
  readResult : Option QAVPacket
  eof : Bool
  deriving Repr

/-- One full iteration of the `doDemux` loop body (after `doWait`). -/
def Player.doDemuxStep (p : Player) (inp : DemuxIterInput) :
    Player × List DemuxEffect :=
  if p.backpressure then (p, [DemuxEffect.sleep10])
  else
    let r1 := p.demuxSeekPhase inp.seekRet inp.relockPending
    let r2 := r1.1.demuxReadPhase inp.readResult inp.eof
    (r2.1, r1.2 ++ r2.2)

/-- The closure `doDemux` dispatches to the client thread on end of media:
`setMediaStatus(EndOfMedia); q_ptr->stop()`. -/
def Player.endOfMediaDispatch (p : Player) : Player × List Signal :=
  let r1 := p.setMediaStatus QAVPlayer.MediaStatus.EndOfMedia
  let r2 := r1.1.stop
  (r2.1, r1.2 ++ r2.2)

/-- `listPrecedes a b l`: the first occurrence of `a` in `l` is strictly
before some occurrence of `b`. -/
def listPrecedes (a b : Signal) : List Signal → Bool
  | [] => false
  | x :: xs => if x = a then xs.contains b else listPrecedes a b xs

/-! ## Sample states used by witnesses and counterexamples -/

/-- A plain loaded player: 10-second seekable media with one video and one
audio stream, no pending seek, gate armed, stopped. -/
def samplePlayer : Player :=
  { url := "file:///a.mp4"
    mediaStatus := QAVPlayer.MediaStatus.LoadedMedia
    state := QAVPlayer.State.StoppedState
    error := QAVPlayer.Error.NoError
    errorString := ""
    seekable := true
    speed := 1
    videoFrameRate := 25
    duration := 10
    pendingPosition := -1
    videoStream := 0
    audioStream := 1
    videoQueue := { packets := [], finished := false, pts := 0 }
    audioQueue := { packets := [], finished := false, pts := 0 }
    isWaiting := true
    events := [] }

/-! ## Claim theorems -/

/-- Claim C1: `position()` returns, in truncated integer milliseconds:
the duration when mediaStatus is EndOfMedia; else the pending seek position
when one is set (≥ 0); else the video queue's pts when a video stream is
present, the audio queue's pts otherwise — exactly the specification's
formula `EndOfMedia ? duration : PendingPosition ≥ 0 ? PendingPosition :
hasVideo ? VideoPts : AudioPts`. -/
theorem position_matches_spec (p : Player) : p.position = p.positionSpec := by
  unfold Player.position Player.positionSpec Player.durationMs
  by_cases h1 : p.mediaStatus = QAVPlayer.MediaStatus.EndOfMedia
  · simp [h1]
  · by_cases h2 : 0 ≤ p.pendingPosition <;> simp [h1, h2]

/-- Claim C3: `seek(pos)` with `pos < 0`, or with a known positive duration
and `pos > duration()`, returns immediately: no field changes (pending
position, events, gate, media status) and no signal is emitted. -/
theorem seek_rejects_out_of_range (p : Player) (pos : Int)
    (h : pos < 0 ∨ (0 < p.durationMs ∧ p.durationMs < pos)) :
    p.seek pos = (p, []) := by
  unfold Player.seek
  rw [if_pos h]

theorem seek_rejects_out_of_range_witness :
    samplePlayer.seek (-1) = (samplePlayer, []) ∧
      samplePlayer.seek 10001 = (samplePlayer, []) :=
  ⟨seek_rejects_out_of_range samplePlayer (-1) (Or.inl (by decide)),
   seek_rejects_out_of_range samplePlayer 10001 (Or.inr (by decide))⟩

/-- Claim C5: `play()` with an empty source URL or with mediaStatus
InvalidMedia is a no-op: state unchanged, no event appended, gate untouched,
no signal emitted. -/
theorem play_noop_invalid_or_no_url (p : Player)
    (h : p.url = "" ∨ p.mediaStatus = QAVPlayer.MediaStatus.InvalidMedia) :
    p.play = (p, []) := by
  unfold Player.play
  rw [if_pos h]

def noUrlPlayer : Player := { samplePlayer with url := "" }

def invalidPlayer : Player :=
  { samplePlayer with mediaStatus := QAVPlayer.MediaStatus.InvalidMedia,
                      error := QAVPlayer.Error.ResourceError }

theorem play_noop_invalid_or_no_url_witness :
    noUrlPlayer.play = (noUrlPlayer, []) ∧
      invalidPlayer.play = (invalidPlayer, []) :=
  ⟨play_noop_invalid_or_no_url noUrlPlayer (Or.inl rfl),
   play_noop_invalid_or_no_url invalidPlayer (Or.inr rfl)⟩

/-- Claim C10: a packet whose stream index matches neither
`demuxer.videoStream()` nor `demuxer.audioStream()` is silently dropped by
the routing step: neither queue changes and the iteration enqueues
nothing. -/
theorem demux_drops_unmatched_packet (p : Player) (pk : QAVPacket) (eof : Bool)
    (hv : pk.streamIndex ≠ p.videoStream) (ha : pk.streamIndex ≠ p.audioStream) :
    p.demuxReadPhase (some pk) eof = (p, [DemuxEffect.readPacket]) := by
  simp only [Player.demuxReadPhase]
  rw [if_neg hv, if_neg ha]

theorem demux_drops_unmatched_packet_witness :
    samplePlayer.demuxReadPhase (some { streamIndex := 7, size := 512 }) false =
      (samplePlayer, [DemuxEffect.readPacket]) :=
  demux_drops_unmatched_packet samplePlayer { streamIndex := 7, size := 512 }
    false (by decide) (by decide)

/-- Claim C8: `setError(kind, msg)` with the currently stored error kind
equal to `kind` is a no-op (error string, media status and signals all
unchanged); otherwise it stores `kind` and `msg`, emits
`errorOccurred(kind, msg)` and sets mediaStatus to InvalidMedia (emitting
`mediaStatusChanged` when it was not already InvalidMedia). -/
theorem setError_idempotent_same_kind (p : Player) (err : QAVPlayer.Error)
    (str : String) :
    (p.error = err → p.setError err str = (p, [])) ∧
    (p.error ≠ err →
      (p.setError err str).1.error = err ∧
      (p.setError err str).1.errorString = str ∧
      (p.setError err str).1.mediaStatus = QAVPlayer.MediaStatus.InvalidMedia ∧
      (p.setError err str).2 =
        Signal.errorOccurred err str ::
          (if p.mediaStatus = QAVPlayer.MediaStatus.InvalidMedia then []
           else [Signal.mediaStatusChanged QAVPlayer.MediaStatus.InvalidMedia])) := by
  constructor
  · intro h
    unfold Player.setError
    rw [if_pos h]
  · intro h
    by_cases h2 : p.mediaStatus = QAVPlayer.MediaStatus.InvalidMedia <;>
      simp [Player.setError, Player.setMediaStatus, h, h2]

theorem setError_idempotent_same_kind_witness :
    samplePlayer.setError QAVPlayer.Error.NoError "x" = (samplePlayer, []) ∧
      ((samplePlayer.setError QAVPlayer.Error.ResourceError "boom").1.error =
          QAVPlayer.Error.ResourceError ∧
        (samplePlayer.setError QAVPlayer.Error.ResourceError "boom").1.errorString =
          "boom" ∧
        (samplePlayer.setError QAVPlayer.Error.ResourceError "boom").1.mediaStatus =
          QAVPlayer.MediaStatus.InvalidMedia ∧
        (samplePlayer.setError QAVPlayer.Error.ResourceError "boom").2 =
          Signal.errorOccurred QAVPlayer.Error.ResourceError "boom" ::
            (if samplePlayer.mediaStatus = QAVPlayer.MediaStatus.InvalidMedia then []
             else [Signal.mediaStatusChanged QAVPlayer.MediaStatus.InvalidMedia])) :=
  ⟨(setError_idempotent_same_kind samplePlayer QAVPlayer.Error.NoError "x").1 rfl,
   (setError_idempotent_same_kind samplePlayer QAVPlayer.Error.ResourceError
      "boom").2 (by decide)⟩

/-- Setting `finished` to the value it already has leaves the queue
unchanged. -/
theorem QAVPacketQueue.set_finished_self (q : QAVPacketQueue) (b : Bool)
    (h : q.finished = b) : ({ q with finished := b } : QAVPacketQueue) = q := by
  subst h
  rfl

/-- Claim C2: in a demuxer-worker iteration where `read()` yields no packet,
exactly when the demuxer is at EOF, both queues are empty and neither is
already finished, the worker finishes each present queue and dispatches
`setMediaStatus(EndOfMedia); stop()` to the client thread; under any other
combination the iteration changes nothing and only sleeps. -/
theorem demux_eof_finish_iff (p : Player) (eof : Bool) :
    ((eof && p.videoQueue.isEmpty && p.audioQueue.isEmpty &&
        !p.videoQueue.finished && !p.audioQueue.finished) = true →
      p.demuxReadPhase none eof =
        ({ p with videoQueue := { p.videoQueue with finished := p.hasVideo },
                  audioQueue := { p.audioQueue with finished := p.hasAudio } },
         [DemuxEffect.readPacket, DemuxEffect.dispatchEndOfMediaStop,
          DemuxEffect.sleep10])) ∧
    ((eof && p.videoQueue.isEmpty && p.audioQueue.isEmpty &&
        !p.videoQueue.finished && !p.audioQueue.finished) = false →
      p.demuxReadPhase none eof =
        (p, [DemuxEffect.readPacket, DemuxEffect.sleep10])) := by
  constructor
  · intro h
    have hv : p.videoQueue.finished = false := by
      simp only [Bool.and_eq_true, Bool.not_eq_true'] at h
      exact h.1.2
    have ha : p.audioQueue.finished = false := by
      simp only [Bool.and_eq_true, Bool.not_eq_true'] at h
      exact h.2
    simp only [Player.demuxReadPhase]
    rw [if_pos h]
    cases hhv : p.hasVideo <;> cases hha : p.hasAudio <;>
      simp only [hhv, hha, if_true, if_false, Bool.false_eq_true, ite_true,
        ite_false, QAVPacketQueue.finish,
        QAVPacketQueue.set_finished_self _ _ hv,
        QAVPacketQueue.set_finished_self _ _ ha]
  · intro h
    simp only [Player.demuxReadPhase]
    rw [if_neg (by simp [h])]

theorem demux_eof_finish_iff_witness :
    samplePlayer.demuxReadPhase none true =
      ({ samplePlayer with
           videoQueue := { samplePlayer.videoQueue with
                             finished := samplePlayer.hasVideo },
           audioQueue := { samplePlayer.audioQueue with
                             finished := samplePlayer.hasAudio } },
       [DemuxEffect.readPacket, DemuxEffect.dispatchEndOfMediaStop,
        DemuxEffect.sleep10]) ∧
    samplePlayer.demuxReadPhase none false =
      (samplePlayer, [DemuxEffect.readPacket, DemuxEffect.sleep10]) :=
  ⟨(demux_eof_finish_iff samplePlayer true).1 (by decide),
   (demux_eof_finish_iff samplePlayer false).2 (by decide)⟩

/-- `demuxer.read()` is invoked in every iteration that reaches the read
phase, whatever it returns. -/
theorem readPacket_in_readPhase (p : Player) (pk : Option QAVPacket)
    (eof : Bool) : DemuxEffect.readPacket ∈ (p.demuxReadPhase pk eof).2 := by
  cases pk with
  | none =>
    simp only [Player.demuxReadPhase]
    split <;> simp
  | some pk =>
    simp only [Player.demuxReadPhase]
    split
    · simp
    · split <;> simp

/-- Claim C7 (amended): the demuxer iteration reads no packet and only
sleeps up to 10 ms exactly while the condition the CODE checks holds —
total queued bytes above 15 MiB, or BOTH queues (video and audio, whether
or not the corresponding stream is present) report `enough()`; otherwise
`demuxer.read()` is called. -/
theorem demux_backpressure_gates_read (p : Player) (inp : DemuxIterInput) :
    (p.backpressure = true →
      p.doDemuxStep inp = (p, [DemuxEffect.sleep10])) ∧
    (p.backpressure = false →
      DemuxEffect.readPacket ∈ (p.doDemuxStep inp).2) := by
  constructor
  · intro h
    simp only [Player.doDemuxStep]
    rw [if_pos h]
  · intro h
    simp only [Player.doDemuxStep]
    rw [if_neg (by simp [h])]
    exact List.mem_append.mpr (Or.inr (readPacket_in_readPhase _ _ _))

def pressuredPlayer : Player :=
  { samplePlayer with
      videoQueue := { packets := [{ streamIndex := 0, size := 16000000 }],
                      finished := false, pts := 0 } }

def idleInput : DemuxIterInput :=
  { seekRet := 0, relockPending := 0, readResult := none, eof := false }

theorem demux_backpressure_gates_read_witness :
    pressuredPlayer.doDemuxStep idleInput =
      (pressuredPlayer, [DemuxEffect.sleep10]) ∧
    DemuxEffect.readPacket ∈ (samplePlayer.doDemuxStep idleInput).2 :=
  ⟨(demux_backpressure_gates_read pressuredPlayer idleInput).1 (by decide),
   (demux_backpressure_gates_read samplePlayer idleInput).2 (by decide)⟩

/-- Audio-only media whose audio queue holds plenty of packets (so the one
present queue reports `enough()`) while total bytes stay under the cap. -/
def audioOnlyPlayer : Player :=
  { samplePlayer with
      videoStream := -1, audioStream := 0,
      audioQueue := { packets := List.replicate 100 { streamIndex := 0, size := 1000 },
                      finished := false, pts := 0 } }

def audioPacketInput : DemuxIterInput :=
  { seekRet := 0, relockPending := 0,
    readResult := some { streamIndex := 0, size := 1000 }, eof := false }

/-- Claim C7 counterexample: with only an audio stream present and the audio
queue `enough()` (the claim's "both present queues report enough()" holds),
the code still reads and enqueues a packet, because `doDemux` tests
`videoQueue.enough() && audioQueue.enough()` and the absent video stream's
queue is empty, hence never `enough()`. -/
theorem demux_backpressure_present_counterexample :
    audioOnlyPlayer.backpressureSpec = true ∧
    audioOnlyPlayer.backpressure = false ∧
    DemuxEffect.readPacket ∈ (audioOnlyPlayer.doDemuxStep audioPacketInput).2 ∧
    (audioOnlyPlayer.doDemuxStep audioPacketInput).1.audioQueue.packets.length =
      101 := by decide

/-- Claim C6 (amended): after the demuxer worker snapshots the pending seek
target and performs `demuxer.seek`, it resets `pendingPosition` to −1 exactly
when the value the cell holds at re-lock time FUZZILY equals the snapshot
under Qt's `qFuzzyCompare` (relative tolerance 10⁻¹²) — in particular an
exactly-unchanged cell is cleared, and a newer seek target outside the
tolerance is left set. -/
theorem demux_seek_pending_reset_fuzzy (p : Player) (seekRet : Int)
    (relockPending : ℚ) (h0 : 0 ≤ p.pendingPosition) (h1 : 0 ≤ relockPending) :
    ((p.demuxSeekPhase seekRet relockPending).1.pendingPosition = -1 ↔
      qFuzzyCompare relockPending p.pendingPosition = true) ∧
    (qFuzzyCompare relockPending p.pendingPosition = false →
      (p.demuxSeekPhase seekRet relockPending).1.pendingPosition =
        relockPending) := by
  have hproj : (p.demuxSeekPhase seekRet relockPending).1.pendingPosition =
      (if qFuzzyCompare relockPending p.pendingPosition then (-1 : ℚ)
       else relockPending) := by
    simp only [Player.demuxSeekPhase]
    rw [if_pos h0]
  constructor
  · rw [hproj]
    cases hq : qFuzzyCompare relockPending p.pendingPosition with
    | true => simp [hq]
    | false =>
      simp only [hq, Bool.false_eq_true, if_false, ite_false, iff_false]
      intro hc
      rw [hc] at h1
      norm_num at h1
  · intro hq
    rw [hproj, hq]
    simp

def seekingPlayer : Player := { samplePlayer with pendingPosition := 5 }

theorem demux_seek_pending_reset_fuzzy_witness :
    ((seekingPlayer.demuxSeekPhase 0 5).1.pendingPosition = -1 ↔
      qFuzzyCompare 5 seekingPlayer.pendingPosition = true) :=
  (demux_seek_pending_reset_fuzzy seekingPlayer 0 5 (by decide) (by decide)).1

/-- A pending seek target of 10¹⁰ seconds (reachable: `seek(10¹³ ms)` with
unknown duration passes the bounds check, and `1e13 / 1000.0` is exact in
`double`). -/
def hugeSeekPlayer : Player :=
  { samplePlayer with duration := 0, pendingPosition := 10000000000 }

/-- Claim C6 counterexample: the code resets `pendingPosition` with
`qFuzzyCompare`, not equality.  A newer `seek(10¹³ + 1 ms)` writes
10¹⁰ + 1/1000 — a different value, still distinct in `double` (ulp there
is ≈ 2·10⁻⁶) — yet the worker clears the cell to −1, losing the newer seek,
because the two values agree within the 10⁻¹² relative tolerance. -/
theorem demux_seek_reset_not_exact_counterexample :
    ((hugeSeekPlayer.demuxSeekPhase 0 (10000000000 + 1/1000)).1.pendingPosition
        = -1) ∧
    ¬((10000000000 + 1/1000 : ℚ) = hugeSeekPlayer.pendingPosition) ∧
    (0 : ℚ) ≤ 10000000000 + 1/1000 := by decide

/-- A loaded player whose media has reached its end. -/
def endOfMediaPlayer : Player :=
  { samplePlayer with mediaStatus := QAVPlayer.MediaStatus.EndOfMedia }

/-- Claim C4 counterexample: calling `play()` at EndOfMedia emits
`stateChanged(PlayingState)` BEFORE the observable effect of `seek(0)`
(the `mediaStatusChanged(LoadedMedia)` downgrade): the code runs
`setState(PlayingState)` first and only then `seek(0)`, so the claimed
order "seek(0) then Playing" does not hold. -/
theorem play_endofmedia_order_counterexample :
    (endOfMediaPlayer.play).2 =
      [Signal.stateChanged QAVPlayer.State.PlayingState,
       Signal.mediaStatusChanged QAVPlayer.MediaStatus.LoadedMedia] ∧
    listPrecedes (Signal.mediaStatusChanged QAVPlayer.MediaStatus.LoadedMedia)
        (Signal.stateChanged QAVPlayer.State.PlayingState)
        (endOfMediaPlayer.play).2 = false ∧
    listPrecedes (Signal.stateChanged QAVPlayer.State.PlayingState)
        (Signal.mediaStatusChanged QAVPlayer.MediaStatus.LoadedMedia)
        (endOfMediaPlayer.play).2 = true := by decide

/-- Claim C4 (amended): `play()` at EndOfMedia with a non-empty URL, when the
state is not already Playing, transitions to Playing and issues `seek(0)`
(pendingPosition becomes 0, MediaStatus is downgraded to LoadedMedia,
a seeked then a played event are queued, the gate is released) — in the
order Playing first, then seek(0). -/
theorem play_endofmedia_amended (p : Player) (h1 : ¬p.url = "")
    (h2 : p.mediaStatus = QAVPlayer.MediaStatus.EndOfMedia)
    (h3 : ¬p.state = QAVPlayer.State.PlayingState) :
    (p.play).1.state = QAVPlayer.State.PlayingState ∧
    (p.play).1.pendingPosition = 0 ∧
    (p.play).1.mediaStatus = QAVPlayer.MediaStatus.LoadedMedia ∧
    (p.play).1.isWaiting = false ∧
    (p.play).1.events = p.events ++ [EventKind.seekedEvent,
                                     EventKind.playedEvent] ∧
    (p.play).2 = [Signal.stateChanged QAVPlayer.State.PlayingState,
                  Signal.mediaStatusChanged QAVPlayer.MediaStatus.LoadedMedia] := by
  have hg2 : ¬(0 < truncQ (p.duration * 1000) ∧ truncQ (p.duration * 1000) < 0) :=
    fun hc => absurd (hc.1.trans hc.2) (lt_irrefl 0)
  have hcond : ¬(p.url = "" ∨
      p.mediaStatus = QAVPlayer.MediaStatus.InvalidMedia) := by
    rintro (hc | hc)
    · exact h1 hc
    · rw [h2] at hc
      exact absurd hc (by decide)
  simp only [Player.play]
  rw [if_neg hcond, if_pos (Or.inr h2)]
  simp only [Player.setState]
  rw [if_neg h3]
  simp [Player.seek, Player.setMediaStatus, Player.pushEvent, Player.wait,
    Player.durationMs, h2, hg2]

def pausedEndPlayer : Player :=
  { samplePlayer with mediaStatus := QAVPlayer.MediaStatus.EndOfMedia,
                      state := QAVPlayer.State.PausedState }

theorem play_endofmedia_amended_witness :
    (pausedEndPlayer.play).1.state = QAVPlayer.State.PlayingState ∧
    (pausedEndPlayer.play).1.pendingPosition = 0 ∧
    (pausedEndPlayer.play).1.mediaStatus = QAVPlayer.MediaStatus.LoadedMedia ∧
    (pausedEndPlayer.play).1.isWaiting = false ∧
    (pausedEndPlayer.play).1.events =
      pausedEndPlayer.events ++ [EventKind.seekedEvent, EventKind.playedEvent] ∧
    (pausedEndPlayer.play).2 =
      [Signal.stateChanged QAVPlayer.State.PlayingState,
       Signal.mediaStatusChanged QAVPlayer.MediaStatus.LoadedMedia] :=
  play_endofmedia_amended pausedEndPlayer (by decide) rfl (by decide)

/-- A state the code's `stop()` guard rejects: not Stopped, but the media
status is neither LoadedMedia nor EndOfMedia. -/
def playingNoMediaPlayer : Player :=
  { samplePlayer with state := QAVPlayer.State.PlayingState,
                      mediaStatus := QAVPlayer.MediaStatus.NoMedia }

/-- Claim C9 counterexample: `stop()` first requires
`mediaStatus() == LoadedMedia || mediaStatus() == EndOfMedia`; with the
state Playing but mediaStatus NoMedia it does nothing at all — no Stopped
transition, no gate release, no stopped event — contradicting the claim
quantified over every call with state ≠ Stopped. -/
theorem stop_nonstopped_counterexample :
    ¬playingNoMediaPlayer.state = QAVPlayer.State.StoppedState ∧
    playingNoMediaPlayer.stop = (playingNoMediaPlayer, []) := by decide

/-- Claim C9 (amended): `stop()` called while the state is not Stopped AND
mediaStatus is LoadedMedia or EndOfMedia transitions to Stopped (emitting
`stateChanged`), releases the gate, and pushes a stopped event; processing
that event emits `stopped(position)`, then — when a video stream is
present — one empty sentinel video frame, and re-arms the gate. -/
theorem stop_amended (p : Player)
    (h1 : ¬p.state = QAVPlayer.State.StoppedState)
    (h2 : p.mediaStatus = QAVPlayer.MediaStatus.LoadedMedia ∨
          p.mediaStatus = QAVPlayer.MediaStatus.EndOfMedia) :
    p.stop = ({ p with state := QAVPlayer.State.StoppedState,
                       isWaiting := false,
                       events := p.events ++ [EventKind.stoppedEvent] },
              [Signal.stateChanged QAVPlayer.State.StoppedState]) ∧
    (∀ (q : Player) (tick : Bool),
      q.runEvent EventKind.stoppedEvent tick =
        ({ q with isWaiting := true },
         Signal.stopped q.position ::
           (if q.hasVideo then [Signal.videoFrame true] else []),
         true)) := by
  constructor
  · simp only [Player.stop]
    rw [if_pos h2]
    simp only [Player.setState]
    rw [if_neg h1]
    rfl
  · intro q tick
    rfl

def pausedPlayer : Player :=
  { samplePlayer with state := QAVPlayer.State.PausedState }

theorem stop_amended_witness :
    pausedPlayer.stop =
      ({ pausedPlayer with state := QAVPlayer.State.StoppedState,
                           isWaiting := false,
                           events := pausedPlayer.events ++ [EventKind.stoppedEvent] },
       [Signal.stateChanged QAVPlayer.State.StoppedState]) :=
  (stop_amended pausedPlayer (by decide) (Or.inl rfl)).1
